import Mathlib

/-!
Shallow embedding of the floor-plan visualization pipeline
(`src/services/openai.ts`, `src/App.tsx`, `src/lib/supabase.ts`).

Images are modelled symbolically: a data URL is a `String`, and the canvas
compositing step `lockStructureOnStyledIsometric` is modelled as a symbolic
constructor on images (it draws the styled image onto a canvas sized to the
base projection, so its output is determined by its two inputs).  External
network calls (image generation, faithfulness evaluation) are modelled as
oracles: functions from the attempt number to an `Except` outcome, where
`Except.error msg` stands for a thrown JS `Error` with message `msg`
(a ServiceError in the taxonomy of the spec).  The models return, alongside the
`Except` result, the number of generation calls and evaluation calls
actually issued, so that "no network call" and "exactly N attempts" are
statable.  JS numbers that hold evaluator scores and room counts are
modelled as `Int`; the float constants of the deterministic projector are
modelled as `ℚ`.
-/

namespace Floor

/-- A symbolic image value.  `raw s` is an image given by a data URL or
remote URL `s`; `locked base styled` is the output of
`lockStructureOnStyledIsometric`, which redraws `styled` on a canvas whose
dimensions are those of `base`. -/
inductive Image where
  | raw (url : String)
  | locked (base styled : Image)
deriving DecidableEq, Repr

/-- `lockStructureOnStyledIsometric` (openai.ts lines 100-121): draws the
styled image onto a canvas sized to the base isometric image and returns
the resulting data URL.  Modelled symbolically. -/
def lockStructureOnStyledIsometric (base styled : Image) : Image :=
  Image.locked base styled

/-- JS truthiness of the module-level `OPENAI_API_KEY` value
(`import.meta.env.VITE_OPENAI_API_KEY`): `undefined` and the empty string
are falsy. -/
def keyConfigured : Option String → Bool
  | none => false
  | some s => !s.isEmpty

/-- The `FaithfulnessResult` interface (openai.ts lines 166-172). -/
structure FaithfulnessResult where
  isFaithful : Bool
  score : Int
  reason : String
  sourceRoomCount : Int
  generatedRoomCount : Int
deriving DecidableEq, Repr

/-- Optional fields of the evaluator JSON body as destructured in
`evaluateLayoutFaithfulness` (openai.ts lines 240-246); `none` models a
field that is absent (or `undefined`/`null`) in the parsed object. -/
structure RawEvalFields where
  is_faithful : Option Bool
  score : Option Int
  reason : Option String
  source_room_count : Option Int
  generated_room_count : Option Int
deriving DecidableEq, Repr

/-- Result of the JSON parse fallback when the response body carries no
content (openai.ts line 240): parsing the two-character empty-object
literal yields an object with every field absent. -/
def emptyBodyFields : RawEvalFields :=
  { is_faithful := none, score := none, reason := none,
    source_room_count := none, generated_room_count := none }

/-- JS `parsed.reason || default`: `undefined` and the empty string are
falsy, so both fall back to the default string. -/
def jsStringOr (v : Option String) (d : String) : String :=
  match v with
  | none => d
  | some s => if s.isEmpty then d else s

/-- The defensive-defaulting step of `evaluateLayoutFaithfulness`
(openai.ts lines 248-254): `Boolean(parsed.is_faithful)`,
`parsed.score ?? 0`, the reason field with JS falsy fallback to the
default string, `parsed.source_room_count ?? 0`,
`parsed.generated_room_count ?? 0`. -/
def parseFaithfulness (parsed : RawEvalFields) : FaithfulnessResult :=
  { isFaithful := parsed.is_faithful.getD false
    score := parsed.score.getD 0
    reason := jsStringOr parsed.reason "No reason provided by validator."
    sourceRoomCount := parsed.source_room_count.getD 0
    generatedRoomCount := parsed.generated_room_count.getD 0 }

/-- The message of the error thrown when no API key is configured
(openai.ts lines 259, 391): the ConfigurationError of the spec. -/
def configurationErrorMessage : String := "OpenAI API key is not configured"

/-- The message of the error thrown by `generateRoomRender` when the
evaluator score is below 60 (openai.ts lines 420-422): the
LayoutMismatchError of the spec. -/
def roomMismatchMessage (score : Int) (reason : String) : String :=
  "Room render is too different from source layout (" ++ toString score
    ++ "/100). " ++ reason

/-- `generateRoomRender` (openai.ts lines 389-430).  `genResult` is the
outcome of the single `generateImageFromFloorPlan` call and `evalResult`
the outcome of the single `evaluateLayoutFaithfulness` call (each
`Except.error` is a thrown ServiceError).  Returns the overall outcome
together with the number of generation calls and evaluation calls issued.
The outer try/catch logs and rethrows, so errors propagate unchanged. -/
def generateRoomRender (apiKey : Option String)
    (genResult : Except String Image)
    (evalResult : Except String FaithfulnessResult) :
    Except String Image × ℕ × ℕ :=
  if !keyConfigured apiKey then
    (Except.error configurationErrorMessage, 0, 0)
  else
    match genResult with
    | Except.error e => (Except.error e, 1, 0)
    | Except.ok generatedImage =>
      match evalResult with
      | Except.error e => (Except.error e, 1, 1)
      | Except.ok validation =>
        if validation.score < 60 then
          (Except.error (roomMismatchMessage validation.score validation.reason), 1, 1)
        else
          (Except.ok generatedImage, 1, 1)

/-- `analyzeFloorPlan` (openai.ts lines 257-326).  The network call and
the post-processing of its response body (markdown stripping, JSON array
parse, trim, dedup) are abstracted into the oracle `callResult`, which
yields the final room list or a thrown error; the claim under
verification concerns only the credential guard at lines 258-260. -/
def analyzeFloorPlan (apiKey : Option String)
    (callResult : Except String (List String)) :
    Except String (List String) × ℕ :=
  if !keyConfigured apiKey then
    (Except.error configurationErrorMessage, 0)
  else
    match callResult with
    | Except.error e => (Except.error e, 1)
    | Except.ok rooms => (Except.ok rooms, 1)

/-! ## Isometric orchestrator (`generateIsometricView`, openai.ts lines 328-387) -/

/-- `maxAttempts` of the isometric loop (openai.ts line 353). -/
def maxAttempts : ℕ := 4

/-- The running best-scoring attempt (`bestStyled`, openai.ts line 354). -/
structure BestStyled where
  imageUrl : Image
  score : Int
deriving DecidableEq, Repr

/-- `bestStyled` update (openai.ts lines 367-369): the first attempt, or a
strictly greater score, replaces the running best. -/
def updateBest (best : Option BestStyled) (styled : Image)
    (validation : FaithfulnessResult) : Option BestStyled :=
  match best with
  | none => some ⟨styled, validation.score⟩
  | some b => if validation.score > b.score then some ⟨styled, validation.score⟩ else some b

/-- `roomCountMatches` (openai.ts lines 371-374): both reported room
counts strictly positive and equal. -/
def roomCountMatches (validation : FaithfulnessResult) : Bool :=
  decide (validation.sourceRoomCount > 0)
    && decide (validation.generatedRoomCount > 0)
    && decide (validation.sourceRoomCount = validation.generatedRoomCount)

/-- The acceptance condition of the isometric loop (openai.ts line 376):
faithful, score at least 90, and room counts match. -/
def isoAccepts (validation : FaithfulnessResult) : Bool :=
  validation.isFaithful && decide (validation.score ≥ 90) && roomCountMatches validation

/-- The attempt loop of `generateIsometricView` (openai.ts lines 356-379),
by recursion on the remaining attempts (`fuel`), carrying the 1-based
attempt number and the running best.  `genAt n` / `evalAt n` are the
outcomes of the `generateImageFromFloorPlan` and
`evaluateLayoutFaithfulness` calls of attempt `n`.  There is no try/catch inside the
loop, so an `Except.error` from either call is returned as the outcome
of the loop.  When the fuel runs out, the deterministic base isometric is
returned (line 382).  Also returns the number of generation calls and of
evaluation calls issued from this point on. -/
def isoLoop (base : Image) (genAt : ℕ → Except String Image)
    (evalAt : ℕ → Except String FaithfulnessResult) :
    ℕ → ℕ → Option BestStyled → Except String Image × ℕ × ℕ
  | 0, _, _ => (Except.ok base, 0, 0)
  | fuel + 1, attempt, best =>
    match genAt attempt with
    | Except.error e => (Except.error e, 1, 0)
    | Except.ok styledImage =>
      match evalAt attempt with
      | Except.error e => (Except.error e, 1, 1)
      | Except.ok validation =>
        if isoAccepts validation then
          (Except.ok (lockStructureOnStyledIsometric base styledImage), 1, 1)
        else
          let rest := isoLoop base genAt evalAt fuel (attempt + 1)
            (updateBest best styledImage validation)
          (rest.1, rest.2.1 + 1, rest.2.2 + 1)

/-- `generateIsometricView` (openai.ts lines 328-387).  `baseResult` is
the outcome of `generateDeterministicIsometricFromPlan` (which can fail
with a decode error).  If the key is not configured (JS-falsy), the
deterministic base is returned immediately and no external call is made.
The outer catch logs and rethrows, so every error propagates unchanged.
Returns the outcome together with the number of generation calls and of
evaluation calls issued. -/
def generateIsometricView (apiKey : Option String)
    (baseResult : Except String Image)
    (genAt : ℕ → Except String Image)
    (evalAt : ℕ → Except String FaithfulnessResult) :
    Except String Image × ℕ × ℕ :=
  match baseResult with
  | Except.error e => (Except.error e, 0, 0)
  | Except.ok baseIsometric =>
    if !keyConfigured apiKey then
      (Except.ok baseIsometric, 0, 0)
    else
      isoLoop baseIsometric genAt evalAt maxAttempts 1 none

/-! ## Deterministic projector canvas dimensions
(`generateDeterministicIsometricFromPlan`, openai.ts lines 57-98) -/

/-- `skewX = -0.58` (openai.ts line 60). -/
def skewX : ℚ := -(58 / 100)

/-- `scaleY = 0.68` (openai.ts line 61). -/
def scaleY : ℚ := 68 / 100

/-- `depth = 28` (openai.ts line 62). -/
def depth : ℚ := 28

/-- `pad = 40` (openai.ts line 63). -/
def pad : ℚ := 40

/-- `projectedWidth = img.width + Math.abs(skewX) * img.height`
(openai.ts line 65). -/
def projectedWidth (W H : ℕ) : ℚ := (W : ℚ) + |skewX| * (H : ℚ)

/-- `projectedHeight = img.height * scaleY` (openai.ts line 66). -/
def projectedHeight (H : ℕ) : ℚ := (H : ℚ) * scaleY

/-- `canvas.width = Math.ceil(projectedWidth + pad * 2 + depth * 2)`
(openai.ts line 69). -/
def canvasWidth (W H : ℕ) : ℤ := ⌈projectedWidth W H + pad * 2 + depth * 2⌉

/-- `canvas.height = Math.ceil(projectedHeight + pad * 2 + depth * 2)`
(openai.ts line 70). -/
def canvasHeight (H : ℕ) : ℤ := ⌈projectedHeight H + pad * 2 + depth * 2⌉

/-- The output width the spec claims for the projector:
`ceil(W + |skewX|·H + 2·pad)` (spec §8, first bullet).  Stated from the
words of the spec, to be compared with `canvasWidth`. -/
def specClaimedWidth (W H : ℕ) : ℤ := ⌈(W : ℚ) + |skewX| * (H : ℚ) + 2 * pad⌉

/-- The output height the spec claims for the projector:
`ceil(H·scaleY + 2·pad)` (spec §8, first bullet).  Stated from the
words of the spec, to be compared with `canvasHeight`. -/
def specClaimedHeight (H : ℕ) : ℤ := ⌈(H : ℚ) * scaleY + 2 * pad⌉

/-! ## Render job store (`supabase.ts` lines 31-42, `App.tsx` lines 106-147) -/

/-- The `status` column of a `renders` row. -/
inductive RenderStatus where
  | pending
  | processing
  | completed
  | failed
deriving DecidableEq, Repr

/-- The mutable columns of a `renders` row that the settlement code
touches (`Render` interface, supabase.ts lines 31-42).  Images stored in
`image_url` are modelled symbolically. -/
structure RenderRow where
  image_url : Option Image
  status : RenderStatus
  error_message : Option String
  completed_at : Option String
deriving DecidableEq, Repr

/-- The `renders` insert issued by `handleUpload` (App.tsx lines
106-115): status set to processing, every other nullable column left at its
schema default of null (migration lines 76-87). -/
def insertedRenderRow : RenderRow :=
  { image_url := none, status := RenderStatus.processing,
    error_message := none, completed_at := none }

/-- The settlement update issued by `handleUpload` (App.tsx lines
128-147): on success it sets image_url, status completed and
completed_at; on failure it sets status failed and error_message.  A supabase
`.update` merges only the named columns into the row. -/
def settleRenderRow (row : RenderRow) (outcome : Except String Image)
    (now : String) : RenderRow :=
  match outcome with
  | Except.ok imageUrl =>
    { row with image_url := some imageUrl, status := RenderStatus.completed,
               completed_at := some now }
  | Except.error e =>
    { row with status := RenderStatus.failed, error_message := some e }

/-- The store-level invariant claimed in spec §3/§8: `status == completed
⇔ image_url != null` and `status == failed ⇔ error_message != null`. -/
def renderInvariant (row : RenderRow) : Prop :=
  (row.status = RenderStatus.completed ↔ row.image_url ≠ none)
    ∧ (row.status = RenderStatus.failed ↔ row.error_message ≠ none)

/-! ## Step lemmas for the isometric attempt loop -/

/-- Exhausted fuel: the loop falls back to the deterministic base
(openai.ts line 382) and issues no further calls. -/
theorem isoLoop_zero (base : Image) (genAt : ℕ → Except String Image)
    (evalAt : ℕ → Except String FaithfulnessResult) (attempt : ℕ)
    (best : Option BestStyled) :
    isoLoop base genAt evalAt 0 attempt best = (Except.ok base, 0, 0) := rfl

/-- A generation error at the current attempt propagates out of the loop
after one generation call and no evaluation call. -/
theorem isoLoop_gen_error (base : Image) (genAt : ℕ → Except String Image)
    (evalAt : ℕ → Except String FaithfulnessResult) (fuel attempt : ℕ)
    (best : Option BestStyled) (e : String)
    (hg : genAt attempt = Except.error e) :
    isoLoop base genAt evalAt (fuel + 1) attempt best = (Except.error e, 1, 0) := by
  simp [isoLoop, hg]

/-- An evaluation error at the current attempt propagates out of the loop
after one generation call and one evaluation call. -/
theorem isoLoop_eval_error (base : Image) (genAt : ℕ → Except String Image)
    (evalAt : ℕ → Except String FaithfulnessResult) (fuel attempt : ℕ)
    (best : Option BestStyled) (styled : Image) (e : String)
    (hg : genAt attempt = Except.ok styled)
    (he : evalAt attempt = Except.error e) :
    isoLoop base genAt evalAt (fuel + 1) attempt best = (Except.error e, 1, 1) := by
  simp [isoLoop, hg, he]

/-- An accepted attempt returns the structure-locked styled image
immediately. -/
theorem isoLoop_accept (base : Image) (genAt : ℕ → Except String Image)
    (evalAt : ℕ → Except String FaithfulnessResult) (fuel attempt : ℕ)
    (best : Option BestStyled) (styled : Image) (v : FaithfulnessResult)
    (hg : genAt attempt = Except.ok styled)
    (he : evalAt attempt = Except.ok v)
    (hv : isoAccepts v = true) :
    isoLoop base genAt evalAt (fuel + 1) attempt best =
      (Except.ok (lockStructureOnStyledIsometric base styled), 1, 1) := by
  simp [isoLoop, hg, he, hv]

/-- A rejected attempt updates the running best and continues with the
next attempt, adding one generation call and one evaluation call to the
counts of the continuation. -/
theorem isoLoop_reject (base : Image) (genAt : ℕ → Except String Image)
    (evalAt : ℕ → Except String FaithfulnessResult) (fuel attempt : ℕ)
    (best : Option BestStyled) (styled : Image) (v : FaithfulnessResult)
    (hg : genAt attempt = Except.ok styled)
    (he : evalAt attempt = Except.ok v)
    (hv : isoAccepts v = false) :
    isoLoop base genAt evalAt (fuel + 1) attempt best =
      ((isoLoop base genAt evalAt fuel (attempt + 1) (updateBest best styled v)).1,
       (isoLoop base genAt evalAt fuel (attempt + 1) (updateBest best styled v)).2.1 + 1,
       (isoLoop base genAt evalAt fuel (attempt + 1) (updateBest best styled v)).2.2 + 1) := by
  simp [isoLoop, hg, he, hv]

/-- Helper: the absolute value of the skew constant. -/
theorem abs_skewX : |skewX| = 58 / 100 := by
  rw [skewX, abs_neg, abs_of_nonneg (by norm_num : (0:ℚ) ≤ 58 / 100)]

/-! ## Claims -/

/-- C1 (counterexample): with a configured key, an environment in which
attempt 1 raises a ServiceError (a timeout) while every later attempt
would generate a perfectly-scored faithful image, `generateIsometricView`
returns that very error after exactly one generation call and zero
evaluation calls: the error is not caught per-attempt and attempt 2 is
never reached, so the whole job aborts. -/
theorem iso_service_error_not_caught_cex :
    generateIsometricView (some "test-key") (Except.ok (Image.raw "base"))
      (fun n => if n = 1 then
          Except.error "Request timed out while generating image. Please try again."
        else Except.ok (Image.raw "styled"))
      (fun _ => Except.ok ⟨true, 95, "ok", 4, 4⟩) =
    (Except.error "Request timed out while generating image. Please try again.",
      1, 0) := rfl

/-- C1 (amended): the loop body of `generateIsometricView` has no
try/catch, so a ServiceError raised by the generation call or by the
evaluation call of attempt 1 propagates out of the loop, is rethrown by
the outer handler, and aborts the whole job; no further attempt runs. -/
theorem iso_service_error_aborts_job (apiKey : Option String)
    (hk : keyConfigured apiKey = true) (base : Image)
    (genAt : ℕ → Except String Image)
    (evalAt : ℕ → Except String FaithfulnessResult) (e : String) :
    (genAt 1 = Except.error e →
      generateIsometricView apiKey (Except.ok base) genAt evalAt =
        (Except.error e, 1, 0)) ∧
    (∀ styled, genAt 1 = Except.ok styled → evalAt 1 = Except.error e →
      generateIsometricView apiKey (Except.ok base) genAt evalAt =
        (Except.error e, 1, 1)) := by
  constructor
  · intro hg
    simp only [generateIsometricView, hk, Bool.not_true, Bool.false_eq_true,
      if_false, maxAttempts]
    rw [show (4:ℕ) = 3 + 1 from rfl,
      isoLoop_gen_error base genAt evalAt 3 1 none e hg]
  · intro styled hg he
    simp only [generateIsometricView, hk, Bool.not_true, Bool.false_eq_true,
      if_false, maxAttempts]
    rw [show (4:ℕ) = 3 + 1 from rfl,
      isoLoop_eval_error base genAt evalAt 3 1 none styled e hg he]

/-- C1 (witness for the amended claim): concrete instance of the abort
behavior for a generation error on attempt 1. -/
theorem iso_service_error_aborts_job_witness :
    generateIsometricView (some "k") (Except.ok (Image.raw "b"))
      (fun n => if n = 1 then Except.error "boom" else Except.ok (Image.raw "s"))
      (fun _ => Except.ok ⟨true, 95, "fine", 4, 4⟩) =
    (Except.error "boom", 1, 0) :=
  (iso_service_error_aborts_job (some "k") rfl (Image.raw "b")
    (fun n => if n = 1 then Except.error "boom" else Except.ok (Image.raw "s"))
    (fun _ => Except.ok ⟨true, 95, "fine", 4, 4⟩) "boom").1 rfl

/-- C2: with a configured key, mocked evaluator outcomes scoring 40, 55
and 92 with faithfulness false, false, true (and matching positive room
counts on attempt 3), `generateIsometricView` performs exactly 3
generation attempts and 3 evaluations and returns the attempt-3 image
(through the structure-lock compositing step, which redraws it at the
dimensions of the deterministic base). -/
theorem iso_accepts_attempt3 (apiKey : Option String)
    (hk : keyConfigured apiKey = true)
    (base s1 s2 s3 : Image) (v1 v2 v3 : FaithfulnessResult)
    (genAt : ℕ → Except String Image)
    (evalAt : ℕ → Except String FaithfulnessResult)
    (hg1 : genAt 1 = Except.ok s1) (hg2 : genAt 2 = Except.ok s2)
    (hg3 : genAt 3 = Except.ok s3)
    (he1 : evalAt 1 = Except.ok v1) (he2 : evalAt 2 = Except.ok v2)
    (he3 : evalAt 3 = Except.ok v3)
    (hv1s : v1.score = 40) (hv1f : v1.isFaithful = false)
    (hv2s : v2.score = 55) (hv2f : v2.isFaithful = false)
    (hv3s : v3.score = 92) (hv3f : v3.isFaithful = true)
    (hv3r : roomCountMatches v3 = true) :
    generateIsometricView apiKey (Except.ok base) genAt evalAt =
      (Except.ok (lockStructureOnStyledIsometric base s3), 3, 3) := by
  have ha1 : isoAccepts v1 = false := by simp [isoAccepts, hv1f, hv1s]
  have ha2 : isoAccepts v2 = false := by simp [isoAccepts, hv2f, hv2s]
  have ha3 : isoAccepts v3 = true := by simp [isoAccepts, hv3f, hv3s, hv3r]
  simp only [generateIsometricView, hk, Bool.not_true, Bool.false_eq_true,
    if_false, maxAttempts]
  rw [show (4:ℕ) = 3 + 1 from rfl,
    isoLoop_reject base genAt evalAt 3 1 none s1 v1 hg1 he1 ha1]
  rw [show (3:ℕ) = 2 + 1 from rfl,
    isoLoop_reject base genAt evalAt 2 2 _ s2 v2 hg2 he2 ha2]
  rw [show (2:ℕ) = 1 + 1 from rfl,
    isoLoop_accept base genAt evalAt 1 3 _ s3 v3 hg3 he3 ha3]

/-- C2 (witness): concrete run with scores 40, 55, 92. -/
theorem iso_accepts_attempt3_witness :
    generateIsometricView (some "k") (Except.ok (Image.raw "plan"))
      (fun n => if n = 1 then Except.ok (Image.raw "a1")
        else if n = 2 then Except.ok (Image.raw "a2")
        else Except.ok (Image.raw "a3"))
      (fun n => if n = 1 then Except.ok ⟨false, 40, "r1", 4, 4⟩
        else if n = 2 then Except.ok ⟨false, 55, "r2", 4, 4⟩
        else Except.ok ⟨true, 92, "r3", 4, 4⟩) =
      (Except.ok (lockStructureOnStyledIsometric (Image.raw "plan")
        (Image.raw "a3")), 3, 3) :=
  iso_accepts_attempt3 (some "k") rfl (Image.raw "plan")
    (Image.raw "a1") (Image.raw "a2") (Image.raw "a3")
    ⟨false, 40, "r1", 4, 4⟩ ⟨false, 55, "r2", 4, 4⟩ ⟨true, 92, "r3", 4, 4⟩
    _ _ rfl rfl rfl rfl rfl rfl rfl rfl rfl rfl rfl rfl rfl

/-- C3 (counterexample): for a 100×100 input, the code produces a canvas
of 294×204 (openai.ts lines 69-70 add `depth * 2 = 56` inside the ceil),
whereas the claimed formulas `ceil(W + abs(skewX)·H + 2·pad)` and
`ceil(H·scaleY + 2·pad)` give 238×148. -/
theorem projector_dims_cex :
    canvasWidth 100 100 ≠ specClaimedWidth 100 100 ∧
    canvasHeight 100 ≠ specClaimedHeight 100 ∧
    canvasWidth 100 100 = 294 ∧ specClaimedWidth 100 100 = 238 ∧
    canvasHeight 100 = 204 ∧ specClaimedHeight 100 = 148 := by
  refine ⟨?_, ?_, ?_, ?_, ?_, ?_⟩ <;>
    norm_num [canvasWidth, canvasHeight, specClaimedWidth, specClaimedHeight,
      projectedWidth, projectedHeight, abs_skewX, scaleY, pad, depth]

/-- C3 (amended): for every raster input of width `W` and height `H`, the
projector canvas dimensions are `width = ceil(W + abs(skewX)·H + 2·pad +
2·depth)` and `height = ceil(H·scaleY + 2·pad + 2·depth)` for the fixed
constants skewX = -0.58, scaleY = 0.68, pad = 40, depth = 28. -/
theorem projector_dims (W H : ℕ) :
    canvasWidth W H = ⌈(W : ℚ) + |skewX| * (H : ℚ) + 2 * pad + 2 * depth⌉ ∧
    canvasHeight H = ⌈(H : ℚ) * scaleY + 2 * pad + 2 * depth⌉ := by
  constructor
  · simp only [canvasWidth, projectedWidth]
    congr 1
    ring
  · simp only [canvasHeight, projectedHeight]
    congr 1
    ring

/-- C4: with a configured key, if each of the 4 attempts generates and
evaluates without error but every score stays below the acceptance
threshold 90, `generateIsometricView` returns the deterministic base
projection (no error), and settling the inserted render row with that
outcome marks the job completed with the image set. -/
theorem iso_exhaustion_lenient_fallback (apiKey : Option String)
    (hk : keyConfigured apiKey = true) (base : Image)
    (genAt : ℕ → Except String Image)
    (evalAt : ℕ → Except String FaithfulnessResult)
    (s : ℕ → Image) (v : ℕ → FaithfulnessResult)
    (hg : ∀ i, 1 ≤ i → i ≤ 4 → genAt i = Except.ok (s i))
    (he : ∀ i, 1 ≤ i → i ≤ 4 → evalAt i = Except.ok (v i))
    (hscore : ∀ i, 1 ≤ i → i ≤ 4 → (v i).score < 90)
    (now : String) :
    generateIsometricView apiKey (Except.ok base) genAt evalAt =
      (Except.ok base, 4, 4) ∧
    settleRenderRow insertedRenderRow
        (generateIsometricView apiKey (Except.ok base) genAt evalAt).1 now =
      { image_url := some base, status := RenderStatus.completed,
        error_message := none, completed_at := some now } := by
  have hacc : ∀ i, 1 ≤ i → i ≤ 4 → isoAccepts (v i) = false := by
    intro i h1 h2
    have hlt := hscore i h1 h2
    have hdec : decide ((v i).score ≥ 90) = false :=
      decide_eq_false (by omega)
    simp [isoAccepts, hdec]
  have main : generateIsometricView apiKey (Except.ok base) genAt evalAt =
      (Except.ok base, 4, 4) := by
    simp only [generateIsometricView, hk, Bool.not_true, Bool.false_eq_true,
      if_false, maxAttempts]
    rw [show (4:ℕ) = 3 + 1 from rfl,
      isoLoop_reject base genAt evalAt 3 1 none (s 1) (v 1)
        (hg 1 (by norm_num) (by norm_num)) (he 1 (by norm_num) (by norm_num))
        (hacc 1 (by norm_num) (by norm_num))]
    rw [show (3:ℕ) = 2 + 1 from rfl,
      isoLoop_reject base genAt evalAt 2 2 _ (s 2) (v 2)
        (hg 2 (by norm_num) (by norm_num)) (he 2 (by norm_num) (by norm_num))
        (hacc 2 (by norm_num) (by norm_num))]
    rw [show (2:ℕ) = 1 + 1 from rfl,
      isoLoop_reject base genAt evalAt 1 3 _ (s 3) (v 3)
        (hg 3 (by norm_num) (by norm_num)) (he 3 (by norm_num) (by norm_num))
        (hacc 3 (by norm_num) (by norm_num))]
    rw [show (1:ℕ) = 0 + 1 from rfl,
      isoLoop_reject base genAt evalAt 0 4 _ (s 4) (v 4)
        (hg 4 (by norm_num) (by norm_num)) (he 4 (by norm_num) (by norm_num))
        (hacc 4 (by norm_num) (by norm_num))]
    rw [isoLoop_zero]
  exact ⟨main, by rw [main]; rfl⟩

/-- C4 (witness): concrete exhaustion run in which every attempt scores
40 and the job settles completed with the deterministic projection. -/
theorem iso_exhaustion_lenient_fallback_witness :
    generateIsometricView (some "k") (Except.ok (Image.raw "b"))
      (fun _ => Except.ok (Image.raw "s"))
      (fun _ => Except.ok ⟨false, 40, "low", 4, 4⟩) =
      (Except.ok (Image.raw "b"), 4, 4) ∧
    settleRenderRow insertedRenderRow
        (generateIsometricView (some "k") (Except.ok (Image.raw "b"))
          (fun _ => Except.ok (Image.raw "s"))
          (fun _ => Except.ok ⟨false, 40, "low", 4, 4⟩)).1 "t0" =
      { image_url := some (Image.raw "b"), status := RenderStatus.completed,
        error_message := none, completed_at := some "t0" } :=
  iso_exhaustion_lenient_fallback (some "k") rfl (Image.raw "b")
    (fun _ => Except.ok (Image.raw "s"))
    (fun _ => Except.ok ⟨false, 40, "low", 4, 4⟩)
    (fun _ => Image.raw "s") (fun _ => ⟨false, 40, "low", 4, 4⟩)
    (fun _ _ _ => rfl) (fun _ _ _ => rfl) (fun _ _ _ => by norm_num) "t0"

/-- C5: the render row inserted by the upload flow and the row resulting
from its settlement both satisfy the store invariant (status completed
iff image URL non-null, status failed iff error message non-null), the
two terminal states are mutually exclusive, and the completion timestamp
is non-null exactly when the settled status is completed (and is null on
the freshly inserted row). -/
theorem render_settlement_invariant (outcome : Except String Image)
    (now : String) :
    renderInvariant insertedRenderRow ∧
    renderInvariant (settleRenderRow insertedRenderRow outcome now) ∧
    ¬ ((settleRenderRow insertedRenderRow outcome now).status =
          RenderStatus.completed ∧
       (settleRenderRow insertedRenderRow outcome now).status =
          RenderStatus.failed) ∧
    ((settleRenderRow insertedRenderRow outcome now).completed_at ≠ none ↔
      (settleRenderRow insertedRenderRow outcome now).status =
        RenderStatus.completed) ∧
    insertedRenderRow.completed_at = none := by
  cases outcome <;>
    simp [renderInvariant, settleRenderRow, insertedRenderRow]

/-- C6: with a configured key and a successful generation and evaluation,
`generateRoomRender` performs exactly one generation attempt; it fails
with the layout-mismatch error (whose message embeds the numeric score
and the evaluator reason) exactly when the score is strictly below 60,
and returns the generated image for every score of 60 or above. -/
theorem room_render_threshold (apiKey : Option String)
    (hk : keyConfigured apiKey = true)
    (generatedImage : Image) (validation : FaithfulnessResult) :
    (generateRoomRender apiKey (Except.ok generatedImage)
        (Except.ok validation)).2.1 = 1 ∧
    (validation.score < 60 →
      generateRoomRender apiKey (Except.ok generatedImage)
          (Except.ok validation) =
        (Except.error (roomMismatchMessage validation.score validation.reason),
          1, 1) ∧
      (∃ pre post, roomMismatchMessage validation.score validation.reason =
        pre ++ toString validation.score ++ post) ∧
      (∃ pre, roomMismatchMessage validation.score validation.reason =
        pre ++ validation.reason)) ∧
    (60 ≤ validation.score →
      generateRoomRender apiKey (Except.ok generatedImage)
          (Except.ok validation) = (Except.ok generatedImage, 1, 1)) := by
  refine ⟨?_, fun hlt => ⟨?_, ?_, ?_⟩, fun hge => ?_⟩
  · by_cases h : validation.score < 60 <;> simp [generateRoomRender, hk, h]
  · simp [generateRoomRender, hk, hlt]
  · exact ⟨"Room render is too different from source layout (",
      "/100). " ++ validation.reason, by simp [roomMismatchMessage, String.append_assoc]⟩
  · exact ⟨"Room render is too different from source layout ("
      ++ toString validation.score ++ "/100). ", by simp [roomMismatchMessage, String.append_assoc]⟩
  · simp [generateRoomRender, hk, not_lt.mpr hge]

/-- C6 (witness): score 59 fails with the mismatch message, score 60
returns the generated image (the boundary is inclusive at 60). -/
theorem room_render_threshold_witness :
    generateRoomRender (some "k") (Except.ok (Image.raw "img"))
        (Except.ok ⟨false, 59, "off", 1, 1⟩) =
      (Except.error (roomMismatchMessage 59 "off"), 1, 1) ∧
    generateRoomRender (some "k") (Except.ok (Image.raw "img"))
        (Except.ok ⟨false, 60, "ok", 1, 1⟩) =
      (Except.ok (Image.raw "img"), 1, 1) :=
  ⟨((room_render_threshold (some "k") rfl (Image.raw "img")
      ⟨false, 59, "off", 1, 1⟩).2.1 (by norm_num)).1,
   (room_render_threshold (some "k") rfl (Image.raw "img")
      ⟨false, 60, "ok", 1, 1⟩).2.2 (by norm_num)⟩

/-- C7: the defensive parse of the evaluator response defaults every
missing field instead of raising: an empty body yields exactly
isFaithful false, score 0 and the default reason string (with both room
counts 0), and for every parsed object a missing is_faithful yields
false, a missing score yields 0, and a missing or empty reason yields
the default reason string. -/
theorem evaluator_defensive_defaults :
    parseFaithfulness emptyBodyFields =
      { isFaithful := false, score := 0,
        reason := "No reason provided by validator.",
        sourceRoomCount := 0, generatedRoomCount := 0 } ∧
    ∀ parsed : RawEvalFields,
      (parsed.is_faithful = none →
        (parseFaithfulness parsed).isFaithful = false) ∧
      (parsed.score = none → (parseFaithfulness parsed).score = 0) ∧
      ((parsed.reason = none ∨ parsed.reason = some "") →
        (parseFaithfulness parsed).reason =
          "No reason provided by validator.") := by
  refine ⟨rfl, fun parsed => ⟨fun h => ?_, fun h => ?_, fun h => ?_⟩⟩
  · simp [parseFaithfulness, h]
  · simp [parseFaithfulness, h]
  · rcases h with h | h
    · simp [parseFaithfulness, jsStringOr, h]
    · simp only [parseFaithfulness, jsStringOr, h]
      rfl

/-- C7 (witness): the empty-body defaults, read off the parse of the
empty object. -/
theorem evaluator_defensive_defaults_witness :
    (parseFaithfulness emptyBodyFields).isFaithful = false ∧
    (parseFaithfulness emptyBodyFields).score = 0 ∧
    (parseFaithfulness emptyBodyFields).reason =
      "No reason provided by validator." :=
  ⟨(evaluator_defensive_defaults.2 emptyBodyFields).1 rfl,
   (evaluator_defensive_defaults.2 emptyBodyFields).2.1 rfl,
   (evaluator_defensive_defaults.2 emptyBodyFields).2.2 (Or.inl rfl)⟩

/-- C8: when the credential is absent (or JS-falsy), the isometric path
returns the deterministic projection of the input immediately, without
any generation or evaluation call and without raising. -/
theorem iso_no_credential_deterministic (apiKey : Option String)
    (hk : keyConfigured apiKey = false) (base : Image)
    (genAt : ℕ → Except String Image)
    (evalAt : ℕ → Except String FaithfulnessResult) :
    generateIsometricView apiKey (Except.ok base) genAt evalAt =
      (Except.ok base, 0, 0) := by
  simp [generateIsometricView, hk]

/-- C8 (witness): concrete run with no key configured. -/
theorem iso_no_credential_deterministic_witness :
    generateIsometricView none (Except.ok (Image.raw "plan"))
      (fun _ => Except.error "never called")
      (fun _ => Except.error "never called") =
      (Except.ok (Image.raw "plan"), 0, 0) :=
  iso_no_credential_deterministic none rfl (Image.raw "plan")
    (fun _ => Except.error "never called")
    (fun _ => Except.error "never called")

/-- C9: when the credential is absent (or JS-falsy), both the
room-detection path and the room-render path fail immediately with the
configuration error and issue zero network calls, whatever the pending
oracle outcomes are. -/
theorem missing_credential_config_error (apiKey : Option String)
    (hk : keyConfigured apiKey = false)
    (callResult : Except String (List String))
    (genResult : Except String Image)
    (evalResult : Except String FaithfulnessResult) :
    analyzeFloorPlan apiKey callResult =
      (Except.error configurationErrorMessage, 0) ∧
    generateRoomRender apiKey genResult evalResult =
      (Except.error configurationErrorMessage, 0, 0) := by
  constructor <;> simp [analyzeFloorPlan, generateRoomRender, hk]

/-- C9 (witness): concrete instance with no key configured. -/
theorem missing_credential_config_error_witness :
    analyzeFloorPlan none (Except.ok ["Kitchen"]) =
      (Except.error configurationErrorMessage, 0) ∧
    generateRoomRender none (Except.ok (Image.raw "img"))
        (Except.ok ⟨true, 100, "fine", 2, 2⟩) =
      (Except.error configurationErrorMessage, 0, 0) :=
  missing_credential_config_error none rfl (Except.ok ["Kitchen"])
    (Except.ok (Image.raw "img")) (Except.ok ⟨true, 100, "fine", 2, 2⟩)

/-- C10: an attempt whose evaluation reports a source room count of 0, a
generated room count of 0, or unequal counts is never accepted — even
with isFaithful true and a score of 90 or more — and the loop continues
with the next attempt (falling back deterministically once the fuel is
exhausted); moreover a room count omitted by the evaluator defaults to 0
during parsing and therefore also blocks acceptance. -/
theorem iso_room_count_gate (base : Image)
    (genAt : ℕ → Except String Image)
    (evalAt : ℕ → Except String FaithfulnessResult)
    (fuel attempt : ℕ) (best : Option BestStyled)
    (styled : Image) (validation : FaithfulnessResult)
    (hg : genAt attempt = Except.ok styled)
    (he : evalAt attempt = Except.ok validation)
    (hrc : validation.sourceRoomCount = 0 ∨
      validation.generatedRoomCount = 0 ∨
      validation.sourceRoomCount ≠ validation.generatedRoomCount) :
    isoAccepts validation = false ∧
    isoLoop base genAt evalAt (fuel + 1) attempt best =
      ((isoLoop base genAt evalAt fuel (attempt + 1)
          (updateBest best styled validation)).1,
       (isoLoop base genAt evalAt fuel (attempt + 1)
          (updateBest best styled validation)).2.1 + 1,
       (isoLoop base genAt evalAt fuel (attempt + 1)
          (updateBest best styled validation)).2.2 + 1) ∧
    ∀ parsed : RawEvalFields, parsed.source_room_count = none →
      isoAccepts (parseFaithfulness parsed) = false := by
  have hmatch : roomCountMatches validation = false := by
    rcases hrc with h | h | h
    · simp [roomCountMatches, h]
    · simp [roomCountMatches, h]
    · simp [roomCountMatches, decide_eq_false h]
  have hacc : isoAccepts validation = false := by simp [isoAccepts, hmatch]
  refine ⟨hacc,
    isoLoop_reject base genAt evalAt fuel attempt best styled validation
      hg he hacc, fun parsed hp => ?_⟩
  have h0 : (parseFaithfulness parsed).sourceRoomCount = 0 := by
    simp [parseFaithfulness, hp]
  simp [isoAccepts, roomCountMatches, h0]

/-- C10 (witness): a faithful, 92-scoring evaluation whose room counts
are both 0 is rejected, and a parse with the source room count omitted is
rejected as well. -/
theorem iso_room_count_gate_witness :
    isoAccepts ⟨true, 92, "high", 0, 0⟩ = false ∧
    isoAccepts (parseFaithfulness
      { is_faithful := some true, score := some 92, reason := some "high",
        source_room_count := none, generated_room_count := some 5 }) = false := by
  have h := iso_room_count_gate (Image.raw "b")
    (fun _ => Except.ok (Image.raw "s"))
    (fun _ => Except.ok ⟨true, 92, "high", 0, 0⟩) 0 1 none
    (Image.raw "s") ⟨true, 92, "high", 0, 0⟩ rfl rfl (Or.inl rfl)
  exact ⟨h.1, h.2.2 _ rfl⟩

end Floor
